import Mathlib

/-!
Verification of the kata-07 Atlassian MCP server (mcp_server.py) and its
HTTP client (solution.py) against the repository specification.

The Python code is shallowly embedded: JSON values become the inductive
type Json below, Python dictionaries become association lists (preserving
insertion order, as Python dicts do), fallible Python expressions are
modelled in an exception monad (Except String), and the upstream Atlassian
HTTP service is an explicit input (an HTTPResponse value handed to each
connector, together with a Bool recording whether the connector actually
performed its upstream request).
-/

/-- JSON values, the wire-level data model of the MCP server.  Objects keep
their fields as an ordered association list, mirroring Python dict
insertion order. -/
inductive Json where
  | null
  | bool (b : Bool)
  | num (n : Int)
  | str (s : String)
  | arr (elems : List Json)
  | obj (fields : List (String × Json))

mutual

/-- Boolean structural equality on Json values (Python ==, restricted to
JSON-shaped values). -/
def Json.beq : Json → Json → Bool
  | .null, .null => true
  | .bool a, .bool b => a == b
  | .num a, .num b => a == b
  | .str a, .str b => a == b
  | .arr xs, .arr ys => Json.beqList xs ys
  | .obj fs, .obj gs => Json.beqFields fs gs
  | _, _ => false

/-- Boolean equality on lists of Json values. -/
def Json.beqList : List Json → List Json → Bool
  | [], [] => true
  | x :: xs, y :: ys => Json.beq x y && Json.beqList xs ys
  | _, _ => false

/-- Boolean equality on Json object field lists. -/
def Json.beqFields : List (String × Json) → List (String × Json) → Bool
  | [], [] => true
  | (k, v) :: fs, (l, w) :: gs => k == l && Json.beq v w && Json.beqFields fs gs
  | _, _ => false

end

instance : BEq Json := ⟨Json.beq⟩

/-- Python truthiness of a JSON value, as used by the source's
statements of the form: if not x. -/
def truthy : Json → Bool
  | .null => false
  | .bool b => b
  | .num n => n != 0
  | .str s => s != ""
  | .arr xs => !xs.isEmpty
  | .obj fs => !fs.isEmpty

/-- Field lookup in a JSON object: some value if the key is present in an
object, none otherwise (absent key, or not an object at all). -/
def Json.getOpt : Json → String → Option Json
  | .obj fields, k => fields.lookup k
  | _, _ => none

/-- The value a JSON reader observes for a key: the stored value when the
key is present, null when it is absent.  This is how the repository's own
client reads response fields (Python dict.get). -/
def readField (j : Json) (k : String) : Json :=
  (j.getOpt k).getD Json.null

/-- Exceptions: a computation either returns a value or raises, carrying
the exception text (Python str(e)). -/
abbrev PyResult (α : Type) := Except String α

/-- Python d.get(k, default): returns the default when the key is absent,
raises AttributeError when d is not a dict. -/
def pyGet (d : Json) (k : String) (dflt : Json) : PyResult Json :=
  match d with
  | .obj fields => .ok ((fields.lookup k).getD dflt)
  | _ => .error "AttributeError: object has no attribute get"

/-- Python d[k] subscription: raises KeyError when the key is absent and
TypeError when d is not a dict. -/
def pyIndex (d : Json) (k : String) : PyResult Json :=
  match d with
  | .obj fields =>
      match fields.lookup k with
      | some v => .ok v
      | none => .error ("KeyError: " ++ k)
  | _ => .error "TypeError: value is not subscriptable"

/-- Python iteration (for x in v): lists yield their elements, dicts their
keys, strings their characters; other values raise TypeError. -/
def pyIter : Json → PyResult (List Json)
  | .arr xs => .ok xs
  | .obj fs => .ok (fs.map (fun f => Json.str f.1))
  | .str s => .ok (s.toList.map (fun c => Json.str c.toString))
  | _ => .error "TypeError: value is not iterable"

/-- Does the first character list occur at the head of the second? -/
def charsAtHead : List Char → List Char → Bool
  | [], _ => true
  | _ :: _, [] => false
  | x :: xs, y :: ys => x == y && charsAtHead xs ys

/-- Does the first character list occur contiguously anywhere in the
second? -/
def charsInfix (needle : List Char) (hay : List Char) : Bool :=
  match hay with
  | [] => needle.isEmpty
  | _ :: t => charsAtHead needle hay || charsInfix needle t

/-- Substring test on strings (Python: needle in haystack). -/
def strContains (haystack needle : String) : Bool :=
  charsInfix needle.toList haystack.toList

/-- Python membership test (k in v): substring test for strings, key
membership for dicts, element membership for lists; other values raise. -/
def pyContains (v : Json) (k : String) : PyResult Bool :=
  match v with
  | .str s => .ok (strContains s k)
  | .obj fs => .ok (fs.any (fun f => f.1 == k))
  | .arr xs => .ok (xs.any (fun x => x == Json.str k))
  | _ => .error "TypeError: argument is not a container"

mutual

/-- Python repr of a JSON-like value (used by str() on containers). -/
def pyRepr : Json → String
  | .null => "None"
  | .bool true => "True"
  | .bool false => "False"
  | .num n => toString n
  | .str s => "\x27" ++ s ++ "\x27"
  | .arr xs => "[" ++ pyReprList xs ++ "]"
  | .obj fs => "\x7b" ++ pyReprFields fs ++ "\x7d"

/-- Comma-separated reprs of list elements. -/
def pyReprList : List Json → String
  | [] => ""
  | [x] => pyRepr x
  | x :: xs => pyRepr x ++ ", " ++ pyReprList xs

/-- Comma-separated reprs of dict entries. -/
def pyReprFields : List (String × Json) → String
  | [] => ""
  | [(k, v)] => "\x27" ++ k ++ "\x27: " ++ pyRepr v
  | (k, v) :: fs => "\x27" ++ k ++ "\x27: " ++ pyRepr v ++ ", " ++ pyReprFields fs

end

/-- Python str() of a JSON-like value, as used by the f-string in the 404
branch of do_POST. -/
def pyStr : Json → String
  | .str s => s
  | v => pyRepr v

/-- An upstream HTTP response as observed by a connector: the status code,
the raw body text (response.text) and the parsed body (response.json();
none models a body that is not valid JSON, so that .json() raises). -/
structure HTTPResponse where
  status_code : Nat
  text : String
  jsonBody : Option Json

/-- response.json(): the parsed body, raising JSONDecodeError when the
body is not valid JSON. -/
def respJson (r : HTTPResponse) : PyResult Json :=
  match r.jsonBody with
  | some j => .ok j
  | none => .error "JSONDecodeError"

/-- The upstream-error mapping built by every connector on a non-success
upstream status: error holds response.text, status_code the code. -/
def errorEnvelope (r : HTTPResponse) : Json :=
  .obj [("error", .str r.text), ("status_code", .num (Int.ofNat r.status_code))]

/-- A connector takes the parameters mapping and the upstream HTTP
response, and returns its result (or exception) together with a Bool
recording whether the upstream request was actually issued. -/
abbrev Connector := Json → HTTPResponse → PyResult Json × Bool

/-!
The seven connector functions of mcp_server.py.  Requests to the upstream
service (jira_request / confluence_request) are transport only: the URL and
outgoing payload they build are not observed by any claim, so the upstream
is modelled by the HTTPResponse the request would return, plus the Bool
flag recording that the request was issued.
-/

/-- tool_jira_get_projects (mcp_server.py lines 127-138): list all Jira
projects.  On upstream 200 maps each project to key/name/id; otherwise
returns the error envelope. -/
def tool_jira_get_projects (_params : Json) (resp : HTTPResponse) :
    PyResult Json × Bool :=
  if resp.status_code = 200 then
    ((do
      let projects ← respJson resp
      let ps ← pyIter projects
      let items ← ps.mapM (fun p => do
        let k ← pyIndex p "key"
        let n ← pyIndex p "name"
        let i ← pyIndex p "id"
        pure (Json.obj [("key", k), ("name", n), ("id", i)]))
      pure (Json.obj [("projects", Json.arr items)])), true)
  else
    (.ok (errorEnvelope resp), true)

/-- Normalization of one issue record by tool_jira_search_issues
(mcp_server.py lines 155-174), tolerating the old (nested fields) and new
(flat) upstream response formats. -/
def normalizeIssue (issue : Json) : PyResult Json := do
  let hasFields ← pyContains issue "fields"
  if hasFields then
    let k ← pyIndex issue "key"
    let f ← pyIndex issue "fields"
    let s ← pyIndex f "summary"
    let st ← pyIndex f "status"
    let stn ← pyIndex st "name"
    let it ← pyIndex f "issuetype"
    let itn ← pyIndex it "name"
    let cr ← pyIndex f "created"
    pure (Json.obj [("key", k), ("summary", s), ("status", stn),
                    ("type", itn), ("created", cr)])
  else
    let idDflt ← pyGet issue "id" (.str "unknown")
    let k ← pyGet issue "key" idDflt
    let sumDflt ← pyGet issue "summaryText" (.str "No summary")
    let s ← pyGet issue "summary" sumDflt
    let st0 ← pyGet issue "status" .null
    let status ← match st0 with
      | .obj _ => do
          let stObj ← pyGet issue "status" (.obj [])
          pyGet stObj "name" (.str "Unknown")
      | _ => do
          let stv ← pyGet issue "status" (.str "Unknown")
          pure (Json.str (pyStr stv))
    let it0 ← pyGet issue "issuetype" .null
    let itype ← match it0 with
      | .obj _ => do
          let itObj ← pyGet issue "issuetype" (.obj [])
          pyGet itObj "name" (.str "Unknown")
      | _ => do
          let itv ← pyGet issue "issuetype" (.str "Unknown")
          pure (Json.str (pyStr itv))
    let cr ← pyGet issue "created" (.str "Unknown")
    pure (Json.obj [("key", k), ("summary", s), ("status", status),
                    ("type", itype), ("created", cr)])

/-- tool_jira_search_issues (mcp_server.py lines 141-177): JQL search.
The jql and max_results parameters only feed the request URL (not
modelled), but reading them can still raise when params is not a dict. -/
def tool_jira_search_issues (params : Json) (resp : HTTPResponse) :
    PyResult Json × Bool :=
  match (do
      let _jql ← pyGet params "jql" (.str "ORDER BY created DESC")
      let _maxResults ← pyGet params "max_results" (.num 10)
      pure ()) with
  | .error e => (.error e, false)
  | .ok () =>
    if resp.status_code = 200 then
      ((do
        let data ← respJson resp
        let issueList ← match data with
          | .arr xs => pure (Json.arr xs)
          | _ => pyGet data "issues" (.arr [])
        let raw ← pyIter issueList
        let issues ← raw.mapM normalizeIssue
        let total ← match data with
          | .obj _ => pyGet data "total" (.num issues.length)
          | _ => pure (Json.num issues.length)
        pure (Json.obj [("total", total), ("issues", Json.arr issues)])), true)
    else
      (.ok (errorEnvelope resp), true)

/-- tool_jira_get_issue (mcp_server.py lines 180-200): fetch one issue by
key; requires issue_key. -/
def tool_jira_get_issue (params : Json) (resp : HTTPResponse) :
    PyResult Json × Bool :=
  match pyGet params "issue_key" .null with
  | .error e => (.error e, false)
  | .ok issueKey =>
    if !truthy issueKey then
      (.ok (.obj [("error", .str "issue_key is required")]), false)
    else if resp.status_code = 200 then
      ((do
        let issue ← respJson resp
        let k ← pyIndex issue "key"
        let f ← pyIndex issue "fields"
        let s ← pyIndex f "summary"
        let desc ← pyGet f "description" .null
        let st ← pyIndex f "status"
        let stn ← pyIndex st "name"
        let it ← pyIndex f "issuetype"
        let itn ← pyIndex it "name"
        let pr ← pyGet f "priority" (.obj [])
        let prn ← pyGet pr "name" .null
        let asg ← pyGet f "assignee" .null
        let assignee ←
          if truthy asg then do
            let a ← pyGet f "assignee" (.obj [])
            pyGet a "displayName" .null
          else
            pure Json.null
        let cr ← pyIndex f "created"
        let up ← pyIndex f "updated"
        pure (Json.obj [("key", k), ("summary", s), ("description", desc),
                        ("status", stn), ("type", itn), ("priority", prn),
                        ("assignee", assignee), ("created", cr),
                        ("updated", up)])), true)
    else
      (.ok (errorEnvelope resp), true)

/-- tool_jira_create_issue (mcp_server.py lines 203-235): create an issue;
requires project_key and summary.  The outgoing creation payload (lines
213-229) is built only after the check and is not observed by any claim,
so it is not modelled; building it cannot raise once params is a dict. -/
def tool_jira_create_issue (params : Json) (resp : HTTPResponse) :
    PyResult Json × Bool :=
  match (do
      let pk ← pyGet params "project_key" .null
      let sm ← pyGet params "summary" .null
      let _issueType ← pyGet params "issue_type" (.str "Task")
      let _descr ← pyGet params "description" (.str "")
      pure (pk, sm)) with
  | .error e => (.error e, false)
  | .ok (pk, sm) =>
    if !truthy pk || !truthy sm then
      (.ok (.obj [("error", .str "project_key and summary are required")]), false)
    else if resp.status_code = 200 ∨ resp.status_code = 201 then
      ((do
        let result ← respJson resp
        let k ← pyIndex result "key"
        let i ← pyIndex result "id"
        let sl ← pyIndex result "self"
        pure (Json.obj [("key", k), ("id", i), ("self", sl)])), true)
    else
      (.ok (errorEnvelope resp), true)

/-- tool_confluence_get_spaces (mcp_server.py lines 238-252): list
Confluence spaces. -/
def tool_confluence_get_spaces (_params : Json) (resp : HTTPResponse) :
    PyResult Json × Bool :=
  if resp.status_code = 200 then
    ((do
      let data ← respJson resp
      let results ← pyGet data "results" (.arr [])
      let rs ← pyIter results
      let spaces ← rs.mapM (fun space => do
        let k ← pyIndex space "key"
        let n ← pyIndex space "name"
        let t ← pyIndex space "type"
        let i ← pyIndex space "id"
        pure (Json.obj [("key", k), ("name", n), ("type", t), ("id", i)]))
      pure (Json.obj [("spaces", Json.arr spaces)])), true)
  else
    (.ok (errorEnvelope resp), true)

/-- Python s.split(sep)[-1] for a one-character separator: the suffix of
s after its last occurrence of sep (the whole of s when sep is absent). -/
def lastSegment (s : String) (sep : Char) : String :=
  ⟨(s.toList.reverse.takeWhile (fun c => c != sep)).reverse⟩

/-- tool_confluence_search (mcp_server.py lines 255-286): CQL title
search; requires query. -/
def tool_confluence_search (params : Json) (resp : HTTPResponse) :
    PyResult Json × Bool :=
  match (do
      let q ← pyGet params "query" .null
      let _maxResults ← pyGet params "max_results" (.num 10)
      pure q) with
  | .error e => (.error e, false)
  | .ok q =>
    if !truthy q then
      (.ok (.obj [("error", .str "query is required")]), false)
    else if resp.status_code = 200 then
      ((do
        let data ← respJson resp
        let results ← pyGet data "results" (.arr [])
        let rs ← pyIter results
        let pages ← rs.mapM (fun page => do
          let expandable ← pyGet page "_expandable" (.obj [])
          let es ← pyGet expandable "space" (.str "")
          let spaceKey ←
            if truthy es then do
              let hasSlash ← pyContains es "/"
              if hasSlash then
                match es with
                | .str s => pure (Json.str (lastSegment s (Char.ofNat 47)))
                | _ => (.error "AttributeError: object has no attribute split" :
                          PyResult Json)
              else
                pure Json.null
            else
              pure Json.null
          let i ← pyIndex page "id"
          let t ← pyIndex page "title"
          let ty ← pyIndex page "type"
          pure (Json.obj [("id", i), ("title", t), ("type", ty),
                          ("space", spaceKey)]))
        let total ← pyGet data "size" (.num pages.length)
        pure (Json.obj [("total", total), ("pages", Json.arr pages)])), true)
    else
      (.ok (errorEnvelope resp), true)

/-- tool_confluence_get_page (mcp_server.py lines 289-305): fetch one page
by id; requires page_id. -/
def tool_confluence_get_page (params : Json) (resp : HTTPResponse) :
    PyResult Json × Bool :=
  match pyGet params "page_id" .null with
  | .error e => (.error e, false)
  | .ok pageId =>
    if !truthy pageId then
      (.ok (.obj [("error", .str "page_id is required")]), false)
    else if resp.status_code = 200 then
      ((do
        let page ← respJson resp
        let i ← pyIndex page "id"
        let t ← pyIndex page "title"
        let sp ← pyGet page "space" (.obj [])
        let spk ← pyGet sp "key" .null
        let v ← pyGet page "version" (.obj [])
        let vn ← pyGet v "number" .null
        let b ← pyGet page "body" (.obj [])
        let bs ← pyGet b "storage" (.obj [])
        let bv ← pyGet bs "value" (.str "")
        pure (Json.obj [("id", i), ("title", t), ("space", spk),
                        ("version", vn), ("body", bv)])), true)
    else
      (.ok (errorEnvelope resp), true)

/-- One parameter descriptor of the TOOLS registry (mcp_server.py lines
35-88). -/
def paramSpec (name ty descr : String) (required : Bool) : Json :=
  .obj [("name", .str name), ("type", .str ty),
        ("description", .str descr), ("required", .bool required)]

/-- One tool descriptor of the TOOLS registry. -/
def toolDescriptor (name descr : String) (parameters : List Json) : Json :=
  .obj [("name", .str name), ("description", .str descr),
        ("parameters", .arr parameters)]

/-- TOOLS (mcp_server.py lines 35-88): the static tool registry served by
the discovery route, in definition order. -/
def TOOLS : List Json := [
  toolDescriptor "jira_get_projects"
    "List all Jira projects accessible to the user" [],
  toolDescriptor "jira_search_issues"
    "Search Jira issues using JQL (Jira Query Language)"
    [paramSpec "jql" "string" "JQL query string" false,
     paramSpec "max_results" "integer" "Maximum results (default 10)" false],
  toolDescriptor "jira_get_issue"
    "Get details of a specific Jira issue by key"
    [paramSpec "issue_key" "string" "Issue key (e.g., PROJ-123)" true],
  toolDescriptor "jira_create_issue"
    "Create a new Jira issue"
    [paramSpec "project_key" "string" "Project key (e.g., PROJ)" true,
     paramSpec "summary" "string" "Issue summary/title" true,
     paramSpec "issue_type" "string" "Issue type (Task, Bug, Story)" false,
     paramSpec "description" "string" "Issue description" false],
  toolDescriptor "confluence_get_spaces"
    "List all Confluence spaces accessible to the user" [],
  toolDescriptor "confluence_search"
    "Search Confluence pages by text"
    [paramSpec "query" "string" "Search query text" true,
     paramSpec "max_results" "integer" "Maximum results (default 10)" false],
  toolDescriptor "confluence_get_page"
    "Get content of a specific Confluence page"
    [paramSpec "page_id" "string" "Page ID" true]
]

/-- TOOL_HANDLERS (mcp_server.py lines 309-317): the name-to-handler
dispatch table, in definition order. -/
def TOOL_HANDLERS : List (String × Connector) := [
  ("jira_get_projects", tool_jira_get_projects),
  ("jira_search_issues", tool_jira_search_issues),
  ("jira_get_issue", tool_jira_get_issue),
  ("jira_create_issue", tool_jira_create_issue),
  ("confluence_get_spaces", tool_confluence_get_spaces),
  ("confluence_search", tool_confluence_search),
  ("confluence_get_page", tool_confluence_get_page)
]

/-- TOOL_HANDLERS.get(tool_name): handler lookup.  Non-string JSON values
never match the string keys of the Python dict. -/
def lookupHandler : Json → Option Connector
  | .str s => TOOL_HANDLERS.lookup s
  | _ => none

/-- An HTTP response sent by the server: status code plus JSON body. -/
structure HttpOut where
  status : Nat
  body : Json

/-- do_GET (mcp_server.py lines 339-351): the three GET routes.  The
server holds no mutable state, so the response is a pure function of the
request path. -/
def do_GET (path : String) : HttpOut :=
  if path = "/health" then
    ⟨200, .obj [("status", .str "healthy"), ("service", .str "atlassian-mcp")]⟩
  else if path = "/mcp/v1/tools" then
    ⟨200, .obj [("tools", .arr TOOLS)]⟩
  else
    ⟨404, .obj [("error", .str "Not found")]⟩

/-- Body parsing in do_POST (mcp_server.py line 363): an empty body is
treated as the empty JSON object without consulting the JSON decoder;
otherwise the decoder runs, none modelling a json.JSONDecodeError.  The
decoder (Python json.loads, external library code) is a parameter. -/
def parseBody (decode : String → Option Json) (body : String) : Option Json :=
  if body = "" then some (Json.obj []) else decode body

/-- What the dispatcher did while handling one POST: whether a handler
lookup was performed, whether a handler was invoked, and whether the
invoked handler issued its upstream request. -/
structure DispatchTrace where
  handlerLookedUp : Bool
  handlerInvoked : Bool
  upstreamCalled : Bool

/-- The trace of a request that never reached the handler table. -/
def noDispatch : DispatchTrace := ⟨false, false, false⟩

/-- do_POST (mcp_server.py lines 353-388).  The result is an Except: ok
carries the JSON response actually sent, while error models an exception
escaping do_POST itself (only possible when the decoded body is not a
JSON object, so that data.get raises before the try block), in which case
the http.server machinery aborts the connection without a JSON reply. -/
def do_POST (decode : String → Option Json) (upstream : HTTPResponse)
    (path : String) (rawBody : String) : PyResult HttpOut × DispatchTrace :=
  match parseBody decode rawBody with
  | none => (.ok ⟨400, .obj [("error", .str "Invalid JSON")]⟩, noDispatch)
  | some data =>
    if path = "/mcp/v1/invoke" then
      -- data.get("name") and data.get("parameters", {}): on a dict these
      -- are lookups with a default (pyGet on an object); on any other
      -- decoded value the first of them raises AttributeError, before the
      -- try block.
      match data with
      | .obj fields =>
        let toolName := (fields.lookup "name").getD .null
        let parameters := (fields.lookup "parameters").getD (.obj [])
        if !truthy toolName then
          (.ok ⟨400, .obj [("error", .str "Tool name is required")]⟩, noDispatch)
        else
          match lookupHandler toolName with
          | none =>
              (.ok ⟨404, .obj [("error",
                  .str ("Unknown tool: " ++ pyStr toolName))]⟩,
               ⟨true, false, false⟩)
          | some handler =>
              match handler parameters upstream with
              | (.ok result, up) =>
                  (.ok ⟨200, .obj [("result", result), ("error", .null)]⟩,
                   ⟨true, true, up⟩)
              | (.error e, up) =>
                  (.ok ⟨500, .obj [("result", .null), ("error", .str e)]⟩,
                   ⟨true, true, up⟩)
      | _ => (.error "AttributeError: object has no attribute get", noDispatch)
    else
      (.ok ⟨404, .obj [("error", .str "Not found")]⟩, noDispatch)

/-- The outcome of the client's POST to /mcp/v1/invoke, as seen by the
requests library: either a response (status plus parsed-or-unparseable
body) or a transport-level RequestException (connection refused, timeout,
DNS failure) carrying its message. -/
inductive Transport where
  | response (status : Nat) (jsonBody : Option Json)
  | failure (msg : String)

/-- The message of the HTTPError raised by response.raise_for_status for
an error status (modelled rendering of the requests library's text). -/
def raiseForStatusMsg (status : Nat) : String :=
  toString status ++ " Error for url: /mcp/v1/invoke"

namespace MCPClient

/-- MCPClient.invoke (solution.py lines 55-66).  raise_for_status raises
HTTPError (a RequestException) for statuses 400-599; the except clause
catches every RequestException and returns the error envelope.  A
response.json() failure (JSONDecodeError, not a RequestException) is not
caught and escapes as an exception. -/
def invoke (outcome : Transport) : PyResult Json :=
  match outcome with
  | .failure msg => .ok (.obj [("error", .str msg), ("result", .null)])
  | .response status jsonBody =>
      if 400 ≤ status ∧ status < 600 then
        .ok (.obj [("error", .str (raiseForStatusMsg status)), ("result", .null)])
      else
        match jsonBody with
        | some j => .ok j
        | none => .error "JSONDecodeError"

end MCPClient

/-!
Concrete sample data used by the theorems and their witnesses below:
request bodies, a decoder table standing in for json.loads on exactly
those bodies, valid parameter mappings, and well-formed upstream bodies.
-/

/-- The invocation request of end-to-end scenario 2: jira_create_issue
with only a summary. -/
def createIssueRequest : Json :=
  .obj [("name", .str "jira_create_issue"),
        ("parameters", .obj [("summary", .str "Title")])]

/-- The raw JSON text of that request. -/
def createIssueRawBody : String :=
  "\x7b\"name\": \"jira_create_issue\", \"parameters\": \x7b\"summary\": \"Title\"\x7d\x7d"

/-- json.loads restricted to the scenario-2 request body. -/
def decodeCreateIssue : String → Option Json := fun s =>
  if s = createIssueRawBody then some createIssueRequest else none

/-- An upstream response that is never consulted on early-return paths. -/
def respUnused : HTTPResponse := ⟨599, "unused", none⟩

/-- A raw body that is not valid JSON. -/
def rawNotJson : String := "not json"

/-- The raw body of an empty JSON object. -/
def rawEmptyObj : String := "\x7b\x7d"

/-- A request naming a tool absent from the dispatch table. -/
def rawUnknownTool : String := "\x7b\"name\": \"does_not_exist\"\x7d"

/-- A request whose parameters field is not an object, so that the handler
raises when reading it. -/
def rawBadParams : String := "\x7b\"name\": \"jira_get_issue\", \"parameters\": 5\x7d"

/-- A jira_get_issue request without parameters. -/
def rawNoIssueKey : String := "\x7b\"name\": \"jira_get_issue\"\x7d"

/-- json.loads restricted to the sample request bodies above. -/
def decodeSample : String → Option Json := fun s =>
  if s = rawEmptyObj then some (.obj [])
  else if s = rawUnknownTool then some (.obj [("name", .str "does_not_exist")])
  else if s = rawBadParams then
    some (.obj [("name", .str "jira_get_issue"), ("parameters", .num 5)])
  else if s = rawNoIssueKey then some (.obj [("name", .str "jira_get_issue")])
  else none

/-- Empty parameters mapping. -/
def emptyParams : Json := .obj []

/-- Valid parameters for tool_jira_get_issue. -/
def issueParams : Json := .obj [("issue_key", .str "PROJ-1")]

/-- Valid parameters for tool_jira_create_issue. -/
def createParams : Json := .obj [("project_key", .str "PROJ"), ("summary", .str "T")]

/-- Valid parameters for tool_confluence_search. -/
def queryParams : Json := .obj [("query", .str "Benefits")]

/-- Valid parameters for tool_confluence_get_page. -/
def pageParams : Json := .obj [("page_id", .str "200")]

/-- A well-formed upstream body for the Jira project list. -/
def wfProjectsBody : Json := .arr [
  .obj [("key", .str "PROJ"), ("name", .str "Project"), ("id", .str "100")]]

/-- A well-formed upstream body for the Jira issue search (old nested
format). -/
def wfSearchBody : Json := .obj [
  ("issues", .arr [
    .obj [("key", .str "PROJ-1"),
          ("fields", .obj [
            ("summary", .str "S"),
            ("status", .obj [("name", .str "Open")]),
            ("issuetype", .obj [("name", .str "Task")]),
            ("created", .str "2024-01-01")])]]),
  ("total", .num 1)]

/-- A well-formed upstream body for a single Jira issue. -/
def wfIssueBody : Json := .obj [
  ("key", .str "PROJ-1"),
  ("fields", .obj [
    ("summary", .str "S"),
    ("status", .obj [("name", .str "Open")]),
    ("issuetype", .obj [("name", .str "Task")]),
    ("created", .str "2024-01-01"),
    ("updated", .str "2024-01-02")])]

/-- A well-formed upstream body for issue creation. -/
def wfCreateBody : Json := .obj [
  ("key", .str "PROJ-2"), ("id", .str "10001"),
  ("self", .str "https://example.atlassian.net/rest/api/3/issue/10001")]

/-- A well-formed upstream body for the Confluence space list. -/
def wfSpacesBody : Json := .obj [
  ("results", .arr [
    .obj [("key", .str "HR"), ("name", .str "Human Resources"),
          ("type", .str "global"), ("id", .num 1)]])]

/-- A well-formed upstream body for the Confluence page search. -/
def wfPagesBody : Json := .obj [
  ("results", .arr [
    .obj [("id", .str "200"), ("title", .str "Benefits"),
          ("type", .str "page"),
          ("_expandable", .obj [("space", .str "/rest/api/space/HR")])]]),
  ("size", .num 1)]

/-- A well-formed upstream body for a single Confluence page. -/
def wfPageBody : Json := .obj [
  ("id", .str "200"), ("title", .str "Benefits"),
  ("space", .obj [("key", .str "HR")]),
  ("version", .obj [("number", .num 3)]),
  ("body", .obj [("storage", .obj [("value", .str "<p>hi</p>")])])]

/-!
Helper lemmas, then one theorem per claim (with a witness where the
theorem carries hypotheses, and a counterexample where the claim as
written fails on the code).
-/

/-- Binding a successful Except computation runs the continuation. -/
theorem bind_ok {ε α β : Type} (a : α) (f : α → Except ε β) :
    (Except.ok a >>= f) = f a := rfl

/-- Mapping over a successful Except computation applies the function. -/
theorem map_ok {ε α β : Type} (a : α) (f : α → β) :
    (f <$> (Except.ok a : Except ε α)) = Except.ok (f a) := rfl

/-- An association-list lookup succeeds exactly when the key occurs among
the list's first components. -/
theorem lookup_isSome_iff_mem {β : Type} (a : String) :
    ∀ l : List (String × β), (l.lookup a).isSome = true ↔ a ∈ l.map Prod.fst
  | [] => by simp [List.lookup]
  | (k, v) :: l => by
      cases hkb : a == k with
      | true =>
          have he : a = k := eq_of_beq hkb
          subst he
          simp [List.lookup, hkb]
      | false =>
          have hne : ¬(a = k) := fun e => by simp [e] at hkb
          simp [List.lookup, hkb, lookup_isSome_iff_mem a l, hne]

/-- Claim C1: for every POST to /mcp/v1/invoke, the HTTP status is 400
when the body is malformed JSON or the name field is missing, 404 when
the named tool is not in the dispatch table, 500 when the handler raises,
and 200 when the handler returns normally — including when it returns an
upstream-error mapping, which then travels inside the JSON body while the
status stays 200. -/
theorem invoke_status_taxonomy
    (decode : String → Option Json) (upstream : HTTPResponse) (rawBody : String) :
    (parseBody decode rawBody = none →
      do_POST decode upstream "/mcp/v1/invoke" rawBody
        = (.ok ⟨400, .obj [("error", .str "Invalid JSON")]⟩, noDispatch))
  ∧ (∀ fs, parseBody decode rawBody = some (.obj fs) →
      fs.lookup "name" = none →
      do_POST decode upstream "/mcp/v1/invoke" rawBody
        = (.ok ⟨400, .obj [("error", .str "Tool name is required")]⟩, noDispatch))
  ∧ (∀ fs s, parseBody decode rawBody = some (.obj fs) →
      fs.lookup "name" = some (.str s) → s ≠ "" →
      TOOL_HANDLERS.lookup s = none →
      do_POST decode upstream "/mcp/v1/invoke" rawBody
        = (.ok ⟨404, .obj [("error", .str ("Unknown tool: " ++ s))]⟩,
           ⟨true, false, false⟩))
  ∧ (∀ fs s h e up, parseBody decode rawBody = some (.obj fs) →
      fs.lookup "name" = some (.str s) → s ≠ "" →
      TOOL_HANDLERS.lookup s = some h →
      h ((fs.lookup "parameters").getD (.obj [])) upstream = (.error e, up) →
      do_POST decode upstream "/mcp/v1/invoke" rawBody
        = (.ok ⟨500, .obj [("result", .null), ("error", .str e)]⟩,
           ⟨true, true, up⟩))
  ∧ (∀ fs s h v up, parseBody decode rawBody = some (.obj fs) →
      fs.lookup "name" = some (.str s) → s ≠ "" →
      TOOL_HANDLERS.lookup s = some h →
      h ((fs.lookup "parameters").getD (.obj [])) upstream = (.ok v, up) →
      do_POST decode upstream "/mcp/v1/invoke" rawBody
        = (.ok ⟨200, .obj [("result", v), ("error", .null)]⟩,
           ⟨true, true, up⟩)) := by
  refine ⟨?_, ?_, ?_, ?_, ?_⟩
  · intro hp
    simp [do_POST, hp]
  · intro fs hp hn
    simp [do_POST, hp, hn, truthy]
  · intro fs s hp hn hs hl
    simp [do_POST, hp, hn, truthy, bne_iff_ne, hs, lookupHandler, hl, pyStr]
  · intro fs s h e up hp hn hs hl hh
    simp [do_POST, hp, hn, truthy, bne_iff_ne, hs, lookupHandler, hl, hh]
  · intro fs s h v up hp hn hs hl hh
    simp [do_POST, hp, hn, truthy, bne_iff_ne, hs, lookupHandler, hl, hh]

/-- Witness for invoke_status_taxonomy at five concrete requests, one per
status class. -/
theorem invoke_status_taxonomy_witness :
    do_POST decodeSample respUnused "/mcp/v1/invoke" rawNotJson
      = (.ok ⟨400, .obj [("error", .str "Invalid JSON")]⟩, noDispatch)
  ∧ do_POST decodeSample respUnused "/mcp/v1/invoke" rawEmptyObj
      = (.ok ⟨400, .obj [("error", .str "Tool name is required")]⟩, noDispatch)
  ∧ do_POST decodeSample respUnused "/mcp/v1/invoke" rawUnknownTool
      = (.ok ⟨404, .obj [("error", .str ("Unknown tool: " ++ "does_not_exist"))]⟩,
         ⟨true, false, false⟩)
  ∧ do_POST decodeSample respUnused "/mcp/v1/invoke" rawBadParams
      = (.ok ⟨500, .obj [("result", .null),
          ("error", .str "AttributeError: object has no attribute get")]⟩,
         ⟨true, true, false⟩)
  ∧ do_POST decodeSample respUnused "/mcp/v1/invoke" rawNoIssueKey
      = (.ok ⟨200, .obj [("result", .obj [("error", .str "issue_key is required")]),
          ("error", .null)]⟩,
         ⟨true, true, false⟩) :=
  ⟨(invoke_status_taxonomy decodeSample respUnused rawNotJson).1 rfl,
   (invoke_status_taxonomy decodeSample respUnused rawEmptyObj).2.1 [] rfl rfl,
   (invoke_status_taxonomy decodeSample respUnused rawUnknownTool).2.2.1
     [("name", .str "does_not_exist")] "does_not_exist" rfl rfl
     (by decide) rfl,
   (invoke_status_taxonomy decodeSample respUnused rawBadParams).2.2.2.1
     [("name", .str "jira_get_issue"), ("parameters", .num 5)] "jira_get_issue"
     tool_jira_get_issue "AttributeError: object has no attribute get" false
     rfl rfl (by decide) rfl rfl,
   (invoke_status_taxonomy decodeSample respUnused rawNoIssueKey).2.2.2.2
     [("name", .str "jira_get_issue")] "jira_get_issue" tool_jira_get_issue
     (.obj [("error", .str "issue_key is required")]) false
     rfl rfl (by decide) rfl rfl⟩

/-- Claim C2 (counterexample): for the scenario-2 request (jira_create_issue
with only a summary), the invocation envelope's error field is null — not
the validation message — and its result field is the error object, not
null.  The claim as stated places the message in the envelope's error and
null in result; the code does the opposite. -/
theorem create_issue_missing_project_cex :
    (do_POST decodeCreateIssue respUnused "/mcp/v1/invoke" createIssueRawBody).1
      = .ok ⟨200, .obj [("result",
          .obj [("error", .str "project_key and summary are required")]),
          ("error", .null)]⟩
    ∧ readField (.obj [("result",
          .obj [("error", .str "project_key and summary are required")]),
          ("error", .null)]) "error"
        ≠ .str "project_key and summary are required"
    ∧ readField (.obj [("result",
          .obj [("error", .str "project_key and summary are required")]),
          ("error", .null)]) "result"
        ≠ Json.null :=
  ⟨rfl, fun h => Json.noConfusion h, fun h => Json.noConfusion h⟩

/-- Claim C2 (amended): invoking jira_create_issue with parameters
consisting only of a summary yields HTTP 200 and an envelope whose error
is null and whose result is the object containing the message
"project_key and summary are required"; the handler returns that error
object without calling upstream. -/
theorem create_issue_missing_project_envelope
    (decode : String → Option Json) (upstream : HTTPResponse) (rawBody : String)
    (hne : rawBody ≠ "") (hdec : decode rawBody = some createIssueRequest) :
    do_POST decode upstream "/mcp/v1/invoke" rawBody
      = (.ok ⟨200, .obj [("result",
          .obj [("error", .str "project_key and summary are required")]),
          ("error", .null)]⟩,
         ⟨true, true, false⟩)
    ∧ tool_jira_create_issue (.obj [("summary", .str "Title")]) upstream
        = (.ok (.obj [("error", .str "project_key and summary are required")]),
           false) := by
  have hp : parseBody decode rawBody = some createIssueRequest := by
    simp [parseBody, hne, hdec]
  constructor
  · simp [do_POST, hp, createIssueRequest, lookupHandler, TOOL_HANDLERS,
      List.lookup, tool_jira_create_issue, pyGet, truthy, bind_ok, map_ok]
  · simp [tool_jira_create_issue, pyGet, truthy, List.lookup, bind_ok, map_ok]

/-- Witness for create_issue_missing_project_envelope at the concrete
scenario-2 request. -/
theorem create_issue_missing_project_envelope_witness :
    do_POST decodeCreateIssue respUnused "/mcp/v1/invoke" createIssueRawBody
      = (.ok ⟨200, .obj [("result",
          .obj [("error", .str "project_key and summary are required")]),
          ("error", .null)]⟩,
         ⟨true, true, false⟩)
    ∧ tool_jira_create_issue (.obj [("summary", .str "Title")]) respUnused
        = (.ok (.obj [("error", .str "project_key and summary are required")]),
           false) :=
  create_issue_missing_project_envelope decodeCreateIssue respUnused
    createIssueRawBody (by decide) rfl

/-- Claim C3 (counterexample): tool_jira_get_projects, on an upstream
response with 2xx status 202, returns the error/status_code mapping and
not the domain-field (projects) mapping, refuting the claim that every
2xx status yields domain fields. -/
theorem connector_2xx_claim_cex :
    (200 ≤ 202 ∧ 202 < 300)
    ∧ tool_jira_get_projects emptyParams ⟨202, "Accepted", some (.arr [])⟩
        = (.ok (.obj [("error", .str "Accepted"), ("status_code", .num 202)]),
           true)
    ∧ Json.getOpt (.obj [("error", .str "Accepted"), ("status_code", .num 202)])
        "projects" = none
    ∧ Json.getOpt (.obj [("error", .str "Accepted"), ("status_code", .num 202)])
        "error" = some (.str "Accepted") :=
  ⟨by decide, rfl, rfl, rfl⟩

/-- Claim C3 (amended): every connector, called with valid parameters,
returns the mapping with error = response.text and status_code whenever
the upstream status is not its success status (200, or 200/201 for
jira_create_issue) — raising no exception on any such status — and
returns the domain-field mapping when the status is the success status
and the body is well-formed. -/
theorem connector_status_contract :
    (∀ resp : HTTPResponse, resp.status_code ≠ 200 →
      tool_jira_get_projects emptyParams resp = (.ok (errorEnvelope resp), true))
  ∧ (∀ text, tool_jira_get_projects emptyParams ⟨200, text, some wfProjectsBody⟩
      = (.ok (.obj [("projects", .arr [
          .obj [("key", .str "PROJ"), ("name", .str "Project"),
                ("id", .str "100")]])]), true))
  ∧ (∀ resp : HTTPResponse, resp.status_code ≠ 200 →
      tool_jira_search_issues emptyParams resp = (.ok (errorEnvelope resp), true))
  ∧ (∀ text, tool_jira_search_issues emptyParams ⟨200, text, some wfSearchBody⟩
      = (.ok (.obj [("total", .num 1), ("issues", .arr [
          .obj [("key", .str "PROJ-1"), ("summary", .str "S"),
                ("status", .str "Open"), ("type", .str "Task"),
                ("created", .str "2024-01-01")]])]), true))
  ∧ (∀ resp : HTTPResponse, resp.status_code ≠ 200 →
      tool_jira_get_issue issueParams resp = (.ok (errorEnvelope resp), true))
  ∧ (∀ text, tool_jira_get_issue issueParams ⟨200, text, some wfIssueBody⟩
      = (.ok (.obj [("key", .str "PROJ-1"), ("summary", .str "S"),
          ("description", .null), ("status", .str "Open"),
          ("type", .str "Task"), ("priority", .null), ("assignee", .null),
          ("created", .str "2024-01-01"), ("updated", .str "2024-01-02")]),
         true))
  ∧ (∀ resp : HTTPResponse, ¬(resp.status_code = 200 ∨ resp.status_code = 201) →
      tool_jira_create_issue createParams resp = (.ok (errorEnvelope resp), true))
  ∧ (∀ text s, (s = 200 ∨ s = 201) →
      tool_jira_create_issue createParams ⟨s, text, some wfCreateBody⟩
      = (.ok (.obj [("key", .str "PROJ-2"), ("id", .str "10001"),
          ("self", .str "https://example.atlassian.net/rest/api/3/issue/10001")]),
         true))
  ∧ (∀ resp : HTTPResponse, resp.status_code ≠ 200 →
      tool_confluence_get_spaces emptyParams resp
        = (.ok (errorEnvelope resp), true))
  ∧ (∀ text, tool_confluence_get_spaces emptyParams ⟨200, text, some wfSpacesBody⟩
      = (.ok (.obj [("spaces", .arr [
          .obj [("key", .str "HR"), ("name", .str "Human Resources"),
                ("type", .str "global"), ("id", .num 1)]])]), true))
  ∧ (∀ resp : HTTPResponse, resp.status_code ≠ 200 →
      tool_confluence_search queryParams resp = (.ok (errorEnvelope resp), true))
  ∧ (∀ text, tool_confluence_search queryParams ⟨200, text, some wfPagesBody⟩
      = (.ok (.obj [("total", .num 1), ("pages", .arr [
          .obj [("id", .str "200"), ("title", .str "Benefits"),
                ("type", .str "page"), ("space", .str "HR")]])]), true))
  ∧ (∀ resp : HTTPResponse, resp.status_code ≠ 200 →
      tool_confluence_get_page pageParams resp = (.ok (errorEnvelope resp), true))
  ∧ (∀ text, tool_confluence_get_page pageParams ⟨200, text, some wfPageBody⟩
      = (.ok (.obj [("id", .str "200"), ("title", .str "Benefits"),
          ("space", .str "HR"), ("version", .num 3),
          ("body", .str "<p>hi</p>")]), true)) := by
  refine ⟨?_, fun text => rfl, ?_, fun text => rfl, ?_, fun text => rfl,
          ?_, ?_, ?_, fun text => rfl, ?_, fun text => rfl, ?_, fun text => rfl⟩
  · intro resp h
    simp [tool_jira_get_projects, h]
  · intro resp h
    simp [tool_jira_search_issues, emptyParams, pyGet, bind_ok, h]
  · intro resp h
    simp [tool_jira_get_issue, issueParams, pyGet, truthy, h]
  · intro resp h
    simp [tool_jira_create_issue, createParams, pyGet, truthy, bind_ok,
      List.lookup, h]
  · rintro text s (rfl | rfl) <;> rfl
  · intro resp h
    simp [tool_confluence_get_spaces, h]
  · intro resp h
    simp [tool_confluence_search, queryParams, pyGet, truthy, bind_ok, h]
  · intro resp h
    simp [tool_confluence_get_page, pageParams, pyGet, truthy, h]

/-- Witness for connector_status_contract: each hypothesis-bearing
conjunct applied at a concrete upstream response. -/
theorem connector_status_contract_witness :
    tool_jira_get_projects emptyParams ⟨404, "Not Found", none⟩
      = (.ok (errorEnvelope ⟨404, "Not Found", none⟩), true)
  ∧ tool_jira_search_issues emptyParams ⟨404, "Not Found", none⟩
      = (.ok (errorEnvelope ⟨404, "Not Found", none⟩), true)
  ∧ tool_jira_get_issue issueParams ⟨404, "Not Found", none⟩
      = (.ok (errorEnvelope ⟨404, "Not Found", none⟩), true)
  ∧ tool_jira_create_issue createParams ⟨418, "teapot", none⟩
      = (.ok (errorEnvelope ⟨418, "teapot", none⟩), true)
  ∧ tool_jira_create_issue createParams ⟨201, "", some wfCreateBody⟩
      = (.ok (.obj [("key", .str "PROJ-2"), ("id", .str "10001"),
          ("self", .str "https://example.atlassian.net/rest/api/3/issue/10001")]),
         true)
  ∧ tool_confluence_get_spaces emptyParams ⟨404, "Not Found", none⟩
      = (.ok (errorEnvelope ⟨404, "Not Found", none⟩), true)
  ∧ tool_confluence_search queryParams ⟨404, "Not Found", none⟩
      = (.ok (errorEnvelope ⟨404, "Not Found", none⟩), true)
  ∧ tool_confluence_get_page pageParams ⟨404, "Not Found", none⟩
      = (.ok (errorEnvelope ⟨404, "Not Found", none⟩), true) :=
  ⟨connector_status_contract.1 _ (by decide),
   connector_status_contract.2.2.1 _ (by decide),
   connector_status_contract.2.2.2.2.1 _ (by decide),
   connector_status_contract.2.2.2.2.2.2.1 _ (by decide),
   connector_status_contract.2.2.2.2.2.2.2.1 "" 201 (Or.inr rfl),
   connector_status_contract.2.2.2.2.2.2.2.2.1 _ (by decide),
   connector_status_contract.2.2.2.2.2.2.2.2.2.2.1 _ (by decide),
   connector_status_contract.2.2.2.2.2.2.2.2.2.2.2.2.1 _ (by decide)⟩

/-- Claim C4: for every connector with a declared required parameter
(issue_key for jira_get_issue, page_id for confluence_get_page, query for
confluence_search, project_key and summary for jira_create_issue), calling
the connector with that parameter absent or empty returns an error string
containing the parameter's name, and the upstream request is never
issued. -/
theorem required_param_checks :
    (∀ fs resp,
      (fs.lookup "issue_key" = none ∨ fs.lookup "issue_key" = some (.str "")) →
      tool_jira_get_issue (.obj fs) resp
        = (.ok (.obj [("error", .str "issue_key is required")]), false)
      ∧ strContains "issue_key is required" "issue_key" = true)
  ∧ (∀ fs resp,
      (fs.lookup "page_id" = none ∨ fs.lookup "page_id" = some (.str "")) →
      tool_confluence_get_page (.obj fs) resp
        = (.ok (.obj [("error", .str "page_id is required")]), false)
      ∧ strContains "page_id is required" "page_id" = true)
  ∧ (∀ fs resp,
      (fs.lookup "query" = none ∨ fs.lookup "query" = some (.str "")) →
      tool_confluence_search (.obj fs) resp
        = (.ok (.obj [("error", .str "query is required")]), false)
      ∧ strContains "query is required" "query" = true)
  ∧ (∀ fs resp,
      (fs.lookup "project_key" = none
        ∨ fs.lookup "project_key" = some (.str "")) →
      tool_jira_create_issue (.obj fs) resp
        = (.ok (.obj [("error", .str "project_key and summary are required")]),
           false)
      ∧ strContains "project_key and summary are required" "project_key" = true)
  ∧ (∀ fs resp,
      (fs.lookup "summary" = none ∨ fs.lookup "summary" = some (.str "")) →
      tool_jira_create_issue (.obj fs) resp
        = (.ok (.obj [("error", .str "project_key and summary are required")]),
           false)
      ∧ strContains "project_key and summary are required" "summary" = true) := by
  refine ⟨?_, ?_, ?_, ?_, ?_⟩
  · rintro fs resp (h | h) <;>
      exact ⟨by simp [tool_jira_get_issue, pyGet, h, truthy], by decide⟩
  · rintro fs resp (h | h) <;>
      exact ⟨by simp [tool_confluence_get_page, pyGet, h, truthy], by decide⟩
  · rintro fs resp (h | h) <;>
      exact ⟨by simp [tool_confluence_search, pyGet, h, truthy, bind_ok],
             by decide⟩
  · rintro fs resp (h | h) <;>
      exact ⟨by simp [tool_jira_create_issue, pyGet, h, truthy, bind_ok],
             by decide⟩
  · rintro fs resp (h | h) <;>
      exact ⟨by simp [tool_jira_create_issue, pyGet, h, truthy, bind_ok],
             by decide⟩

/-- Witness for required_param_checks: absent parameters for all four
connectors, plus an empty-string summary for jira_create_issue. -/
theorem required_param_checks_witness :
    (tool_jira_get_issue (.obj []) respUnused
       = (.ok (.obj [("error", .str "issue_key is required")]), false)
     ∧ strContains "issue_key is required" "issue_key" = true)
  ∧ (tool_confluence_get_page (.obj []) respUnused
       = (.ok (.obj [("error", .str "page_id is required")]), false)
     ∧ strContains "page_id is required" "page_id" = true)
  ∧ (tool_confluence_search (.obj []) respUnused
       = (.ok (.obj [("error", .str "query is required")]), false)
     ∧ strContains "query is required" "query" = true)
  ∧ (tool_jira_create_issue (.obj []) respUnused
       = (.ok (.obj [("error", .str "project_key and summary are required")]),
          false)
     ∧ strContains "project_key and summary are required" "project_key" = true)
  ∧ (tool_jira_create_issue
        (.obj [("project_key", .str "PROJ"), ("summary", .str "")]) respUnused
       = (.ok (.obj [("error", .str "project_key and summary are required")]),
          false)
     ∧ strContains "project_key and summary are required" "summary" = true) :=
  ⟨required_param_checks.1 [] respUnused (Or.inl rfl),
   required_param_checks.2.1 [] respUnused (Or.inl rfl),
   required_param_checks.2.2.1 [] respUnused (Or.inl rfl),
   required_param_checks.2.2.2.1 [] respUnused (Or.inl rfl),
   required_param_checks.2.2.2.2
     [("project_key", .str "PROJ"), ("summary", .str "")] respUnused
     (Or.inr rfl)⟩

/-- Claim C5: a POST to /mcp/v1/invoke naming a tool absent from the
dispatch table yields HTTP 404 with a non-null error containing the
literal tool name, and no handler is invoked. -/
theorem unknown_tool_404
    (decode : String → Option Json) (upstream : HTTPResponse) (rawBody : String)
    (fs : List (String × Json)) (s : String)
    (hp : parseBody decode rawBody = some (.obj fs))
    (hn : fs.lookup "name" = some (.str s)) (hs : s ≠ "")
    (hl : TOOL_HANDLERS.lookup s = none) :
    do_POST decode upstream "/mcp/v1/invoke" rawBody
      = (.ok ⟨404, .obj [("error", .str ("Unknown tool: " ++ s))]⟩,
         ⟨true, false, false⟩)
    ∧ readField (.obj [("error", .str ("Unknown tool: " ++ s))]) "error"
        = .str ("Unknown tool: " ++ s)
    ∧ Json.str ("Unknown tool: " ++ s) ≠ Json.null
    ∧ (∃ pre suf, "Unknown tool: " ++ s = pre ++ s ++ suf) := by
  refine ⟨?_, by simp [readField, Json.getOpt, List.lookup], by simp,
          ⟨"Unknown tool: ", "", by simp⟩⟩
  simp [do_POST, hp, hn, truthy, bne_iff_ne, hs, lookupHandler, hl, pyStr]

/-- Witness for unknown_tool_404 at the tool name does_not_exist. -/
theorem unknown_tool_404_witness :
    do_POST decodeSample respUnused "/mcp/v1/invoke" rawUnknownTool
      = (.ok ⟨404, .obj [("error",
          .str ("Unknown tool: " ++ "does_not_exist"))]⟩,
         ⟨true, false, false⟩)
    ∧ readField (.obj [("error", .str ("Unknown tool: " ++ "does_not_exist"))])
        "error" = .str ("Unknown tool: " ++ "does_not_exist")
    ∧ Json.str ("Unknown tool: " ++ "does_not_exist") ≠ Json.null
    ∧ (∃ pre suf,
        "Unknown tool: " ++ "does_not_exist" = pre ++ "does_not_exist" ++ suf) :=
  unknown_tool_404 decodeSample respUnused rawUnknownTool
    [("name", .str "does_not_exist")] "does_not_exist" rfl rfl (by decide) rfl

/-- Claim C6: a POST to /mcp/v1/invoke whose tool-name field is absent or
empty yields HTTP 400 with a non-null error, a result that reads as null
(the key is absent from the body), and no handler lookup. -/
theorem missing_tool_name_400
    (decode : String → Option Json) (upstream : HTTPResponse) (rawBody : String)
    (fs : List (String × Json))
    (hp : parseBody decode rawBody = some (.obj fs))
    (hn : fs.lookup "name" = none ∨ fs.lookup "name" = some (.str "")) :
    do_POST decode upstream "/mcp/v1/invoke" rawBody
      = (.ok ⟨400, .obj [("error", .str "Tool name is required")]⟩, noDispatch)
    ∧ readField (.obj [("error", .str "Tool name is required")]) "error"
        = .str "Tool name is required"
    ∧ readField (.obj [("error", .str "Tool name is required")]) "result"
        = Json.null
    ∧ noDispatch.handlerLookedUp = false := by
  refine ⟨?_, by simp [readField, Json.getOpt, List.lookup], rfl, rfl⟩
  rcases hn with hn | hn
  · simp [do_POST, hp, hn, truthy]
  · simp [do_POST, hp, hn, truthy]

/-- Witness for missing_tool_name_400 at the empty-object request. -/
theorem missing_tool_name_400_witness :
    do_POST decodeSample respUnused "/mcp/v1/invoke" rawEmptyObj
      = (.ok ⟨400, .obj [("error", .str "Tool name is required")]⟩, noDispatch)
    ∧ readField (.obj [("error", .str "Tool name is required")]) "error"
        = .str "Tool name is required"
    ∧ readField (.obj [("error", .str "Tool name is required")]) "result"
        = Json.null
    ∧ noDispatch.handlerLookedUp = false :=
  missing_tool_name_400 decodeSample respUnused rawEmptyObj [] rfl (Or.inl rfl)

/-- Claim C7: MCPClient.invoke returns the envelope with result null and
error equal to the failure message — rather than raising — on every
transport failure, and likewise on every HTTP error status (400-599)
raised by raise_for_status; the envelope carries the same result/error
fields the server's own envelopes carry. -/
theorem client_invoke_transport_envelope :
    (∀ msg, MCPClient.invoke (.failure msg)
        = .ok (.obj [("error", .str msg), ("result", .null)])
      ∧ readField (.obj [("error", .str msg), ("result", .null)]) "result"
          = .null
      ∧ readField (.obj [("error", .str msg), ("result", .null)]) "error"
          = .str msg)
  ∧ (∀ s b, 400 ≤ s → s < 600 →
      MCPClient.invoke (.response s b)
        = .ok (.obj [("error", .str (raiseForStatusMsg s)), ("result", .null)])) := by
  constructor
  · intro msg
    exact ⟨rfl, by simp [readField, Json.getOpt, List.lookup],
           by simp [readField, Json.getOpt, List.lookup]⟩
  · intro s b h1 h2
    simp [MCPClient.invoke, h1, h2]

/-- Witness for client_invoke_transport_envelope: a connection-refused
message and an HTTP 500 response. -/
theorem client_invoke_transport_envelope_witness :
    MCPClient.invoke (.failure "Connection refused")
      = .ok (.obj [("error", .str "Connection refused"), ("result", .null)])
  ∧ MCPClient.invoke (.response 500 none)
      = .ok (.obj [("error", .str (raiseForStatusMsg 500)), ("result", .null)]) :=
  ⟨(client_invoke_transport_envelope.1 "Connection refused").1,
   client_invoke_transport_envelope.2 500 none (by decide) (by decide)⟩

/-- Claim C8: GET /mcp/v1/tools always returns HTTP 200 with the tools
array in registry definition order; the route is a pure function of the
path, so any sequence of repeated calls returns identical, order-stable
results. -/
theorem tools_route_constant :
    do_GET "/mcp/v1/tools" = ⟨200, .obj [("tools", .arr TOOLS)]⟩
  ∧ TOOLS.map (fun t => readField t "name")
      = [.str "jira_get_projects", .str "jira_search_issues",
         .str "jira_get_issue", .str "jira_create_issue",
         .str "confluence_get_spaces", .str "confluence_search",
         .str "confluence_get_page"]
  ∧ ∀ n : Nat, (List.replicate n "/mcp/v1/tools").map do_GET
      = List.replicate n (do_GET "/mcp/v1/tools") :=
  ⟨rfl, rfl, fun n => by simp [List.map_replicate]⟩

/-- Claim C9: the tool names advertised by the registry equal, in order,
the keys of the dispatch table, and a name is advertised exactly when its
handler lookup succeeds — discovery and invocability agree. -/
theorem registry_matches_dispatch :
    TOOLS.map (fun t => readField t "name")
      = TOOL_HANDLERS.map (fun h => .str h.1)
  ∧ TOOL_HANDLERS.map Prod.fst
      = ["jira_get_projects", "jira_search_issues", "jira_get_issue",
         "jira_create_issue", "confluence_get_spaces", "confluence_search",
         "confluence_get_page"]
  ∧ (∀ s : String,
      (Json.str s) ∈ TOOLS.map (fun t => readField t "name")
        ↔ (TOOL_HANDLERS.lookup s).isSome = true) := by
  refine ⟨rfl, rfl, ?_⟩
  intro s
  rw [lookup_isSome_iff_mem]
  rw [show TOOLS.map (fun t => readField t "name")
      = [.str "jira_get_projects", .str "jira_search_issues",
         .str "jira_get_issue", .str "jira_create_issue",
         .str "confluence_get_spaces", .str "confluence_search",
         .str "confluence_get_page"] from rfl]
  rw [show TOOL_HANDLERS.map Prod.fst
      = ["jira_get_projects", "jira_search_issues", "jira_get_issue",
         "jira_create_issue", "confluence_get_spaces", "confluence_search",
         "confluence_get_page"] from rfl]
  simp [List.mem_cons]

/-- Claim C10: a POST to /mcp/v1/invoke with an empty body is treated as
the empty JSON object — the decoder is never consulted — and yields HTTP
400 with error "Tool name is required", not the "Invalid JSON" error. -/
theorem empty_body_as_empty_object
    (decode : String → Option Json) (upstream : HTTPResponse) :
    parseBody decode "" = some (.obj [])
    ∧ do_POST decode upstream "/mcp/v1/invoke" ""
        = (.ok ⟨400, .obj [("error", .str "Tool name is required")]⟩, noDispatch)
    ∧ (Json.obj [("error", .str "Tool name is required")]
        ≠ .obj [("error", .str "Invalid JSON")]) :=
  ⟨rfl, rfl, by simp⟩
